import Mathlib

/-!
Shallow embedding of the term-quote generator (quote_generator.py, app.py).

A spreadsheet cell is either missing (pandas NaN) or a text value; Python's
str() renders a missing value as "nan".  A table is an ordered list of column
names together with data rows (each row aligned with the columns).  The
document is modelled as an ordered list of blocks (headings, paragraphs,
tables of string cells), mirroring the python-docx calls in source order.
-/

/-- A spreadsheet cell: missing (pandas NaN) or a text value. -/
inductive Cell
| na
| v (s : String)
deriving DecidableEq, Repr

/-- Python str() applied to a cell value: str(nan) is the string nan. -/
def Cell.toStr : Cell → String
| .na => "nan"
| .v s => s

/-- A parsed sheet: column names from the header row, then data rows. -/
structure Table where
  columns : List String
  rows : List (List Cell)
deriving DecidableEq, Repr

/-- pandas DataFrame.empty: true when either axis has zero length. -/
def Table.isEmpty (t : Table) : Bool :=
  t.rows.isEmpty || t.columns.isEmpty

/-- The dict returned by read_sheets: sheet name to parsed table. -/
abbrev Workbook := List (String × Table)

/-- Dictionary lookup sheets.get(name, None). -/
def wbGet (wb : Workbook) (name : String) : Option Table :=
  wb.lookup name

/-- pandas row.get(name): the cell under column name, walking the columns in
order alongside the row values; none when the column is absent. -/
def lookupCell : List String → List Cell → String → Option Cell
| [], _, _ => none
| c :: cs, row, name =>
    if c = name then some (row.headD Cell.na)
    else lookupCell cs row.tail name

/-- str(row.get(name, default)): render the cell when the column exists,
otherwise the default string. -/
def getStr (cols : List String) (row : List Cell) (name dflt : String) : String :=
  match lookupCell cols row name with
  | some c => c.toStr
  | none => dflt

/-- str(row.get("10 Pay Premium", row.get("10 Pay", ""))): the fallback chain
for the 10 Pay Premium column of add_premium_comparison. -/
def tenPayStr (cols : List String) (row : List Cell) : String :=
  match lookupCell cols row "10 Pay Premium" with
  | some c => c.toStr
  | none =>
    match lookupCell cols row "10 Pay" with
    | some c => c.toStr
    | none => ""

/-- A document block: python-docx heading, paragraph, or table of text cells. -/
inductive Block
| heading (level : Nat) (text : String)
| para (text : String)
| table (cells : List (List String))
deriving DecidableEq, Repr

/-- A wall-clock instant, as consumed by strftime. -/
structure Timestamp where
  day : Nat
  month : Nat
  year : Nat
  hour : Nat
  minute : Nat
deriving DecidableEq, Repr

/-- The decimal digit character of n mod 10. -/
def digitChar (n : Nat) : Char :=
  match n % 10 with
  | 0 => '0' | 1 => '1' | 2 => '2' | 3 => '3' | 4 => '4'
  | 5 => '5' | 6 => '6' | 7 => '7' | 8 => '8' | _ => '9'

/-- A zero-padded two-digit field ([%]d, [%]m, [%]H, [%]M). -/
def fmt2 (n : Nat) : List Char :=
  [digitChar (n / 10), digitChar n]

/-- A zero-padded four-digit field ([%]Y). -/
def fmt4 (n : Nat) : List Char :=
  [digitChar (n / 1000), digitChar (n / 100), digitChar (n / 10), digitChar n]

/-- strftime with format string d-m-Y H:M (DD-MM-YYYY HH:MM). -/
def fmtTimestamp (t : Timestamp) : String :=
  String.mk (fmt2 t.day ++ ['-'] ++ fmt2 t.month ++ ['-'] ++ fmt4 t.year
    ++ [' '] ++ fmt2 t.hour ++ [':'] ++ fmt2 t.minute)

/-- Recogniser for the DD-MM-YYYY HH:MM shape: sixteen characters, digits in
the data positions and the separators dash, dash, space, colon. -/
def isTimestampFormat (s : String) : Bool :=
  match s.data with
  | [a, b, c, d, e, f, g, h, i, j, k, l, m, n, o, p] =>
    a.isDigit && b.isDigit && c == '-' && d.isDigit && e.isDigit && f == '-' &&
    g.isDigit && h.isDigit && i.isDigit && j.isDigit && k == ' ' &&
    l.isDigit && m.isDigit && n == ':' && o.isDigit && p.isDigit
  | _ => false

/-- write_header: bold organisation line and title in one paragraph, an
optional Client line (emitted only when client_name is truthy, i.e. not the
empty string), then the Date paragraph from the clock. -/
def write_header (title_text client_name : String) (now : Timestamp) : List Block :=
  [Block.para ("Incremint Edge Pvt Ltd\n" ++ title_text ++ "\n")]
  ++ (if client_name = "" then [] else [Block.para ("Client: " ++ client_name ++ "\n")])
  ++ [Block.para ("Date: " ++ fmtTimestamp now ++ "\n")]

/-- The Field/Value rows of add_client_details_table: a header row, then one
row per source column holding str(client_df.iloc[0].get(col, "")). -/
def clientDetailRows (t : Table) : List (List String) :=
  ["Field", "Value"] :: t.columns.map (fun col => [col, getStr t.columns (t.rows.headD []) col ""])

/-- add_client_details_table: heading plus the Field/Value table. -/
def add_client_details_table (t : Table) : List Block :=
  [Block.heading 3 "Client Details", Block.table (clientDetailRows t)]

/-- The client table is emitted only if Client Details is present and
non-empty (the python if-guard around add_client_details_table). -/
def clientSection : Option Table → List Block
| some t => if t.isEmpty then [] else add_client_details_table t
| none => []

/-- The four cover keys probed in make_term_quote_from_excel. -/
def coverKeys : List String := ["Sum Assured", "Policy Term", "Cover Till Age", "PPT"]

/-- The cover_info dict: for each cover key present as a column of a
non-empty Client Details table, the first row's raw cell value. -/
def coverInfo (client_df : Option Table) : List (String × Cell) :=
  match client_df with
  | some t =>
    if t.isEmpty then []
    else coverKeys.filterMap (fun k =>
      (lookupCell t.columns (t.rows.headD []) k).map (fun c => (k, c)))
  | none => []

/-- str(cover_info.get(key, "")). -/
def coverGetStr (info : List (String × Cell)) (key : String) : String :=
  match info.lookup key with
  | some c => c.toStr
  | none => ""

/-- add_cover_details_table: heading plus a fixed four-column table with one
data row filled from the cover_info dict. -/
def add_cover_details_table (info : List (String × Cell)) : List Block :=
  [Block.heading 3 "Cover Details",
   Block.table [coverKeys,
     [coverGetStr info "Sum Assured", coverGetStr info "Policy Term",
      coverGetStr info "Cover Till Age", coverGetStr info "PPT"]]]

/-- The fixed header row of the Premium Comparison table (cols in the
source); the first entry is the blank logo-placeholder column. -/
def premiumHeader : List String :=
  [" ", "Company", "Plan", "Regular Premium", "10 Pay Premium", "Notes"]

/-- One data row of the Premium Comparison table: blank logo cell, then the
column lookups with their defaults and the 10 Pay fallback chain. -/
def premiumRow (cols : List String) (row : List Cell) : List String :=
  ["", getStr cols row "Insurance Company" "", getStr cols row "Plan Name" "",
   getStr cols row "Regular Premium" "", tenPayStr cols row,
   getStr cols row "Special Notes" ""]

/-- The Premium Comparison table rows: the fixed header, then one mapped row
per input row in source order (iterrows). -/
def premiumTableRows (t : Table) : List (List String) :=
  premiumHeader :: t.rows.map (premiumRow t.columns)

/-- add_premium_comparison: heading plus the comparison table. -/
def add_premium_comparison (t : Table) : List Block :=
  [Block.heading 3 "Premium Comparison (Regular/10 Pay)",
   Block.table (premiumTableRows t)]

/-- The premium section is emitted whenever the Premiums sheet is present,
even when it is empty (the python if premiums_df is not None guard). -/
def premiumSection : Option Table → List Block
| some t => add_premium_comparison t
| none => []

/-- fillna("") followed by astype(str): a missing cell renders as the empty
string in the Final Notes join. -/
def cellNotes : Cell → String
| .na => ""
| .v s => s

/-- The Final Notes join: cells of a row space-joined, rows space-joined. -/
def notesText (t : Table) : String :=
  String.intercalate " " (t.rows.map (fun r => String.intercalate " " (r.map cellNotes)))

/-- The fixed default advisory paragraph. -/
def defaultAdvisoryNote : String :=
  "Recommendation: 10 Pay offers quicker benefit accumulation — consider max allowed cover and fixed premiums for life. Contact your advisor for exact tailored recommendation. ⚠️ This is a system-generated quote."

/-- notes_text as computed in make_term_quote_from_excel: the join when Final
Notes is present and non-empty, the default paragraph otherwise. -/
def advisoryTextOf : Option Table → String
| some t => if t.isEmpty then defaultAdvisoryNote else notesText t
| none => defaultAdvisoryNote

/-- add_advisory_note: heading plus one paragraph with the note text. -/
def add_advisory_note (notes_text : String) : List Block :=
  [Block.heading 3 "Advisory Note", Block.para notes_text]

/-- The fixed contact section. -/
def contactSection : List Block :=
  [Block.heading 3 "Contact Now 📞",
   Block.para "Agent Name: __________________\nMobile: __________________\n"]

/-- client_name as computed in make_term_quote_from_excel: empty unless
Client Details is present, non-empty, and has a Client Name column, in which
case str(client_df.loc[0, "Client Name"]). -/
def clientNameOf (wb : Workbook) : String :=
  match wbGet wb "Client Details" with
  | some t =>
    if t.isEmpty then ""
    else
      match lookupCell t.columns (t.rows.headD []) "Client Name" with
      | some c => c.toStr
      | none => ""
  | none => ""

/-- The document built by make_term_quote_from_excel from the parsed sheets:
header, optional client table, cover table, optional premium comparison,
advisory note, contact block, in source order. -/
def buildQuoteDoc (wb : Workbook) (now : Timestamp) : List Block :=
  write_header "Final Incremint Dual-Pay Term Quote" (clientNameOf wb) now
  ++ clientSection (wbGet wb "Client Details")
  ++ add_cover_details_table (coverInfo (wbGet wb "Client Details"))
  ++ premiumSection (wbGet wb "Premiums")
  ++ add_advisory_note (advisoryTextOf (wbGet wb "Final Notes"))
  ++ contactSection

/-- A raw sheet as stored in the workbook file: a rectangular grid of texts;
an empty text is an empty spreadsheet cell, which pandas loads as NaN. -/
abbrev RawSheet := List (List String)

/-- The loader input: a parseable workbook, or bytes that pandas rejects
(corrupt file, wrong format) carrying the parse failure description. -/
inductive ExcelInput
| wellFormed (sheets : List (String × RawSheet))
| corrupt (cause : String)

/-- The error taxonomy of the pipeline: an unparseable workbook; neither
primary table containing usable data; or a failed fetch of a named sheet
from the hosted spreadsheet (the except branch of read_sheet_to_df wraps
the Sheets API failure, which an absent sheet triggers, in a RuntimeError
naming the sheet). -/
inductive QuoteError
| malformedInput (cause : String)
| insufficientData
| sheetFetchError (sheetName : String)
deriving DecidableEq, Repr

/-- pandas cell decoding: an empty raw text is a missing value (NaN). -/
def mkCell (s : String) : Cell :=
  if s = "" then Cell.na else Cell.v s

/-- xls.parse(name): the first raw row becomes the column names, the
remaining rows become data rows. -/
def parseSheet : RawSheet → Table
| [] => { columns := [], rows := [] }
| header :: rest => { columns := header, rows := rest.map (fun r => r.map mkCell) }

/-- read_sheets: parse every sheet of the workbook, or propagate the pandas
parse failure with its cause. -/
def read_sheets : ExcelInput → Except QuoteError Workbook
| .corrupt cause => .error (.malformedInput cause)
| .wellFormed sheets => .ok (sheets.map (fun p => (p.1, parseSheet p.2)))

/-- make_term_quote_from_excel: read the sheets then build the document. -/
def make_term_quote_from_excel (input : ExcelInput) (now : Timestamp) :
    Except QuoteError (List Block) :=
  (read_sheets input).map (fun wb => buildQuoteDoc wb now)

/-- read_sheet_to_df (app.py): fetch one named sheet from the hosted
spreadsheet.  An absent sheet makes the API range request raise, and the
except branch re-raises the failure as the wrapped fetch error naming the
sheet; a present sheet with no values gives an empty frame; otherwise the
first row is the header and the rest are data rows (API cells are plain
texts). -/
def read_sheet_to_df (remote : List (String × RawSheet)) (name : String) :
    Except QuoteError Table :=
  match remote.lookup name with
  | none => .error (.sheetFetchError name)
  | some [] => .ok { columns := [], rows := [] }
  | some (header :: rest) =>
      .ok { columns := header, rows := rest.map (fun r => r.map Cell.v) }

/-- download_and_process_spreadsheet (app.py): fetch the two primary sheets
in order, propagating a fetch failure of either before anything else; when
both fetched tables are empty fail before invoking the builder; otherwise
write the combined workbook with both sheets and build the document from
it. -/
def download_and_process_spreadsheet (remote : List (String × RawSheet))
    (now : Timestamp) : Except QuoteError (List Block) :=
  match read_sheet_to_df remote "Client Details" with
  | .error e => .error e
  | .ok client_df =>
    match read_sheet_to_df remote "Premiums" with
    | .error e => .error e
    | .ok prem_df =>
      if client_df.isEmpty && prem_df.isEmpty then
        .error .insufficientData
      else
        .ok (buildQuoteDoc [("Client Details", client_df), ("Premiums", prem_df)] now)

/-- Recogniser for the optional client line of the header: a paragraph whose
first eight characters spell the Client prefix. -/
def isClientLine : Block → Bool
| .para s => s.data.take 8 == "Client: ".data
| _ => false

lemma lookupCell_eq_none (cols : List String) (row : List Cell) (name : String)
    (h : name ∉ cols) : lookupCell cols row name = none := by
  induction cols generalizing row with
  | nil => rfl
  | cons c cs ih =>
    simp only [List.mem_cons, not_or] at h
    simp [lookupCell, Ne.symm h.1, ih _ h.2]

lemma lookupCell_isSome (cols : List String) (row : List Cell) (name : String)
    (h : name ∈ cols) : ∃ c, lookupCell cols row name = some c := by
  induction cols generalizing row with
  | nil => simp at h
  | cons c cs ih =>
    by_cases hc : c = name
    · exact ⟨row.headD Cell.na, by simp [lookupCell, hc]⟩
    · rcases List.mem_cons.mp h with h1 | h2
      · exact absurd h1.symm hc
      · simpa [lookupCell, hc] using ih row.tail h2

lemma digitChar_isDigit (n : Nat) : (digitChar n).isDigit = true := by
  unfold digitChar
  split <;> decide

lemma fmtTimestamp_format (t : Timestamp) : isTimestampFormat (fmtTimestamp t) = true := by
  simp [isTimestampFormat, fmtTimestamp, fmt2, fmt4, digitChar_isDigit]

lemma isClientLine_clientPara (s : String) :
    isClientLine (Block.para ("Client: " ++ s ++ "\n")) = true := by
  simp only [isClientLine, beq_iff_eq]
  rw [String.data_append, String.data_append, List.append_assoc]
  exact List.take_left ("Client: ".data) (s.data ++ "\n".data)

lemma isClientLine_datePara (t : Timestamp) :
    isClientLine (Block.para ("Date: " ++ fmtTimestamp t ++ "\n")) = false := by
  simp only [isClientLine, beq_eq_false_iff_ne, ne_eq]
  rw [String.data_append, String.data_append, List.append_assoc]
  intro h
  have hD : ("Date: ".data ++ ((fmtTimestamp t).data ++ "\n".data)).take 8
      = 'D' :: ("ate: ".data ++ ((fmtTimestamp t).data ++ "\n".data)).take 7 := rfl
  rw [hD] at h
  exact absurd (List.head_eq_of_cons_eq h) (by decide)

/-- Counterexample to C1: with both primary sheets absent, the first fetch
fails and its wrapped error propagates before the empty-check, so the
orchestration fails with the sheet-fetch error, not the insufficient-data
error. -/
theorem c1_absent_sheet_counterexample :
    download_and_process_spreadsheet [] { day := 12, month := 10, year := 2026, hour := 9, minute := 30 }
      = Except.error (QuoteError.sheetFetchError "Client Details") ∧
    Except.error (QuoteError.sheetFetchError "Client Details")
      ≠ (Except.error QuoteError.insufficientData : Except QuoteError (List Block)) :=
  ⟨rfl, by simp⟩

/-- C1 amended: when both primary sheets are fetched successfully but both
come back empty, the orchestration layer fails with the insufficient-data
error before invoking the builder, so no document is produced; an absent
sheet instead fails earlier, with the wrapped fetch error naming it. -/
theorem c1_insufficient_data_amended (remote : List (String × RawSheet)) (now : Timestamp)
    (ct pt : Table)
    (hc : read_sheet_to_df remote "Client Details" = Except.ok ct)
    (hp : read_sheet_to_df remote "Premiums" = Except.ok pt)
    (hce : ct.isEmpty = true) (hpe : pt.isEmpty = true) :
    download_and_process_spreadsheet remote now = Except.error QuoteError.insufficientData ∧
    (∀ name, remote.lookup name = none →
      read_sheet_to_df remote name = Except.error (QuoteError.sheetFetchError name)) := by
  constructor
  · unfold download_and_process_spreadsheet
    rw [hc, hp]
    simp [hce, hpe]
  · intro name hname
    unfold read_sheet_to_df
    rw [hname]

/-- Witness for C1 amended: both sheets present but without any values. -/
theorem c1_insufficient_data_amended_witness :
    download_and_process_spreadsheet [("Client Details", []), ("Premiums", [])]
      { day := 12, month := 10, year := 2026, hour := 9, minute := 30 }
      = Except.error QuoteError.insufficientData :=
  (c1_insufficient_data_amended [("Client Details", []), ("Premiums", [])]
    { day := 12, month := 10, year := 2026, hour := 9, minute := 30 }
    { columns := [], rows := [] } { columns := [], rows := [] } rfl rfl rfl rfl).1

/-- C7: an input that cannot be parsed as a workbook at all makes the sheet
loader fail with the malformed-input error carrying the underlying cause. -/
theorem c7_malformed_input_error (cause : String) :
    read_sheets (ExcelInput.corrupt cause) = Except.error (QuoteError.malformedInput cause) := rfl

/-- C2: whenever the Premiums sheet is present with N rows, the output
document carries the Premium Comparison table, which has exactly N+1 rows
(the fixed header plus one data row per input row, in input order) and
exactly 6 columns, with a blank leading column. -/
theorem c2_premium_comparison_shape (wb : Workbook) (now : Timestamp) (t : Table)
    (h : wbGet wb "Premiums" = some t) :
    Block.table (premiumTableRows t) ∈ buildQuoteDoc wb now ∧
    (premiumTableRows t).length = t.rows.length + 1 ∧
    (premiumTableRows t).headD [] = premiumHeader ∧
    (∀ i row, t.rows[i]? = some row →
      (premiumTableRows t)[i + 1]? = some (premiumRow t.columns row)) ∧
    (∀ r, r ∈ premiumTableRows t → r.length = 6) ∧
    premiumHeader.headD "" = " " ∧
    (∀ row, (premiumRow t.columns row).headD "" = "") := by
  refine ⟨?_, ?_, rfl, ?_, ?_, rfl, fun row => rfl⟩
  · simp [buildQuoteDoc, premiumSection, add_premium_comparison, h]
  · simp [premiumTableRows]
  · intro i row hrow
    simp [premiumTableRows, List.getElem?_map, hrow]
  · intro r hr
    rcases List.mem_cons.mp hr with h1 | h2
    · simp [h1, premiumHeader]
    · rcases List.mem_map.mp h2 with ⟨row, _, hrw⟩
      rw [← hrw]
      rfl

/-- Witness for C2 at a one-row Premiums sheet. -/
theorem c2_premium_comparison_shape_witness :
    (premiumTableRows { columns := ["Plan Name"], rows := [[Cell.v "TermSecure"]] }).length = 2 :=
  (c2_premium_comparison_shape
    [("Premiums", { columns := ["Plan Name"], rows := [[Cell.v "TermSecure"]] })]
    { day := 12, month := 10, year := 2026, hour := 9, minute := 30 }
    { columns := ["Plan Name"], rows := [[Cell.v "TermSecure"]] } rfl).2.1

/-- C3: when the Premiums sheet has no 10 Pay Premium column but has a
10 Pay column, every data row of the Premium Comparison table renders its
10 Pay Premium cell as that row's 10 Pay value. -/
theorem c3_ten_pay_fallback (wb : Workbook) (now : Timestamp) (t : Table)
    (i : Nat) (row : List Cell) (c : Cell)
    (hwb : wbGet wb "Premiums" = some t)
    (habs : "10 Pay Premium" ∉ t.columns)
    (hrow : t.rows[i]? = some row)
    (hc : lookupCell t.columns row "10 Pay" = some c) :
    Block.table (premiumTableRows t) ∈ buildQuoteDoc wb now ∧
    (premiumTableRows t)[i + 1]? = some (premiumRow t.columns row) ∧
    (premiumRow t.columns row)[4]? = some c.toStr := by
  refine ⟨?_, ?_, ?_⟩
  · simp [buildQuoteDoc, premiumSection, add_premium_comparison, hwb]
  · simp [premiumTableRows, List.getElem?_map, hrow]
  · show some (tenPayStr t.columns row) = some c.toStr
    rw [tenPayStr, lookupCell_eq_none t.columns row "10 Pay Premium" habs, hc]

/-- Witness for C3: a sheet with only a 10 Pay column; the fallback fills
the 10 Pay Premium cell with 28000. -/
theorem c3_ten_pay_fallback_witness :
    (premiumRow ["10 Pay"] [Cell.v "28000"])[4]? = some "28000" :=
  (c3_ten_pay_fallback
    [("Premiums", { columns := ["10 Pay"], rows := [[Cell.v "28000"]] })]
    { day := 12, month := 10, year := 2026, hour := 9, minute := 30 }
    { columns := ["10 Pay"], rows := [[Cell.v "28000"]] }
    0 [Cell.v "28000"] (Cell.v "28000") rfl (by decide) rfl rfl).2.2

/-- C10: when a looked-up Premiums column (for example Plan Name) exists but
the row's cell is missing, the rendered Premium Comparison cell is the text
form nan of the missing value, not the empty string; the empty-string
default applies only when the column itself is absent. -/
theorem c10_missing_value_renders_nan (wb : Workbook) (now : Timestamp) (t : Table)
    (i : Nat) (row : List Cell)
    (hwb : wbGet wb "Premiums" = some t)
    (_hmem : "Plan Name" ∈ t.columns)
    (hna : lookupCell t.columns row "Plan Name" = some Cell.na)
    (hrow : t.rows[i]? = some row) :
    Block.table (premiumTableRows t) ∈ buildQuoteDoc wb now ∧
    (premiumTableRows t)[i + 1]? = some (premiumRow t.columns row) ∧
    (premiumRow t.columns row)[2]? = some "nan" ∧
    (∀ cols2 row2, "Plan Name" ∉ cols2 → (premiumRow cols2 row2)[2]? = some "") := by
  refine ⟨?_, ?_, ?_, ?_⟩
  · simp [buildQuoteDoc, premiumSection, add_premium_comparison, hwb]
  · simp [premiumTableRows, List.getElem?_map, hrow]
  · show some (getStr t.columns row "Plan Name" "") = some "nan"
    rw [getStr, hna]
    rfl
  · intro cols2 row2 habs
    show some (getStr cols2 row2 "Plan Name" "") = some ""
    rw [getStr, lookupCell_eq_none cols2 row2 "Plan Name" habs]

/-- Witness for C10: a one-row Premiums sheet whose Plan Name cell is
missing renders as nan. -/
theorem c10_missing_value_renders_nan_witness :
    (premiumRow ["Plan Name"] [Cell.na])[2]? = some "nan" :=
  (c10_missing_value_renders_nan
    [("Premiums", { columns := ["Plan Name"], rows := [[Cell.na]] })]
    { day := 12, month := 10, year := 2026, hour := 9, minute := 30 }
    { columns := ["Plan Name"], rows := [[Cell.na]] }
    0 [Cell.na] rfl (by decide) rfl rfl).2.2.1

/-- C4: with a non-empty Client Details sheet and no Premiums sheet (and no
Final Notes sheet), the document contains the Client Details table and the
Cover Details table, and contains no Premium Comparison section at all:
neither its heading nor a table led by its fixed header row. -/
theorem c4_only_client_details (wb : Workbook) (now : Timestamp) (t : Table)
    (hc : wbGet wb "Client Details" = some t)
    (hne : t.isEmpty = false)
    (hp : wbGet wb "Premiums" = none)
    (hn : wbGet wb "Final Notes" = none) :
    Block.heading 3 "Client Details" ∈ buildQuoteDoc wb now ∧
    Block.table (clientDetailRows t) ∈ buildQuoteDoc wb now ∧
    Block.heading 3 "Cover Details" ∈ buildQuoteDoc wb now ∧
    Block.table [coverKeys,
      [coverGetStr (coverInfo (wbGet wb "Client Details")) "Sum Assured",
       coverGetStr (coverInfo (wbGet wb "Client Details")) "Policy Term",
       coverGetStr (coverInfo (wbGet wb "Client Details")) "Cover Till Age",
       coverGetStr (coverInfo (wbGet wb "Client Details")) "PPT"]] ∈ buildQuoteDoc wb now ∧
    Block.heading 3 "Premium Comparison (Regular/10 Pay)" ∉ buildQuoteDoc wb now ∧
    (∀ cells, Block.table cells ∈ buildQuoteDoc wb now → cells.headD [] ≠ premiumHeader) := by
  have hdoc : buildQuoteDoc wb now =
      write_header "Final Incremint Dual-Pay Term Quote" (clientNameOf wb) now
      ++ add_client_details_table t
      ++ add_cover_details_table (coverInfo (wbGet wb "Client Details"))
      ++ add_advisory_note defaultAdvisoryNote
      ++ contactSection := by
    simp [buildQuoteDoc, clientSection, premiumSection, advisoryTextOf, hc, hne, hp, hn]
  refine ⟨?_, ?_, ?_, ?_, ?_, ?_⟩
  · simp [hdoc, add_client_details_table]
  · simp [hdoc, add_client_details_table]
  · simp [hdoc, add_cover_details_table]
  · simp [hdoc, add_cover_details_table]
  · rcases eq_or_ne (clientNameOf wb) "" with hcn | hcn <;>
      simp [hdoc, write_header, add_client_details_table, add_cover_details_table,
        add_advisory_note, contactSection, hcn]
  · intro cells hmem
    rcases eq_or_ne (clientNameOf wb) "" with hcn | hcn <;>
      simp [hdoc, write_header, add_client_details_table, add_cover_details_table,
        add_advisory_note, contactSection, hcn] at hmem <;>
      rcases hmem with h | h <;>
      simp [h, clientDetailRows, premiumHeader, coverKeys]

/-- Witness for C4 at a one-row Client Details workbook. -/
theorem c4_only_client_details_witness :
    Block.heading 3 "Client Details" ∈
      buildQuoteDoc [("Client Details", { columns := ["Client Name"], rows := [[Cell.v "A. Sharma"]] })]
        { day := 12, month := 10, year := 2026, hour := 9, minute := 30 } :=
  (c4_only_client_details
    [("Client Details", { columns := ["Client Name"], rows := [[Cell.v "A. Sharma"]] })]
    { day := 12, month := 10, year := 2026, hour := 9, minute := 30 }
    { columns := ["Client Name"], rows := [[Cell.v "A. Sharma"]] } rfl rfl rfl rfl).1

/-- Counterexample to C8: a header-only sheet does not come back with no
columns; the loader keeps the header row as the column names. -/
theorem c8_header_only_counterexample :
    read_sheets (ExcelInput.wellFormed [("Sheet1", [["A"]])])
      = Except.ok [("Sheet1", { columns := ["A"], rows := [] })] ∧
    ({ columns := ["A"], rows := [] } : Table).columns ≠ [] :=
  ⟨rfl, by decide⟩

/-- C8 amended: a sheet with zero data rows loads without error into a table
with zero rows; a sheet with no cells at all yields no columns, while a
header-only sheet keeps its header as the column names. -/
theorem c8_zero_row_sheet_amended (grid : RawSheet) (h : grid.length ≤ 1) :
    (parseSheet grid).rows = [] ∧
    (grid = [] → (parseSheet grid).columns = []) ∧
    (∀ hdr, grid = [hdr] → (parseSheet grid).columns = hdr) ∧
    (∀ sheets, read_sheets (ExcelInput.wellFormed sheets)
      = Except.ok (sheets.map (fun p => (p.1, parseSheet p.2)))) := by
  refine ⟨?_, ?_, ?_, fun sheets => rfl⟩
  · match grid with
    | [] => rfl
    | [hdr] => rfl
    | a :: b :: rest => simp at h
  · intro hg
    rw [hg]
    rfl
  · intro hdr hg
    rw [hg]
    rfl

/-- Witness for C8 amended at a header-only sheet. -/
theorem c8_zero_row_sheet_amended_witness :
    [["A", "B"]].length ≤ 1 ∧ (parseSheet [["A", "B"]]).rows = [] :=
  ⟨by decide, (c8_zero_row_sheet_amended [["A", "B"]] (by decide)).1⟩

/-- C6: the Advisory Note section of every document consists of its heading
and one paragraph; the paragraph text is the space-join of the rows of Final
Notes (cells space-joined within a row, missing cells as empty strings,
rows in source order) when that sheet is present and non-empty, and the
fixed default advisory paragraph when it is absent or empty. -/
theorem c6_advisory_note_text (wb : Workbook) (now : Timestamp) :
    [Block.heading 3 "Advisory Note", Block.para (advisoryTextOf (wbGet wb "Final Notes"))]
      <:+: buildQuoteDoc wb now ∧
    (∀ t, wbGet wb "Final Notes" = some t → t.isEmpty = false →
      advisoryTextOf (wbGet wb "Final Notes") =
        String.intercalate " " (t.rows.map (fun r => String.intercalate " " (r.map cellNotes)))) ∧
    (∀ t, wbGet wb "Final Notes" = some t → t.isEmpty = true →
      advisoryTextOf (wbGet wb "Final Notes") = defaultAdvisoryNote) ∧
    (wbGet wb "Final Notes" = none →
      advisoryTextOf (wbGet wb "Final Notes") = defaultAdvisoryNote) := by
  refine ⟨?_, ?_, ?_, ?_⟩
  · refine ⟨write_header "Final Incremint Dual-Pay Term Quote" (clientNameOf wb) now
      ++ clientSection (wbGet wb "Client Details")
      ++ add_cover_details_table (coverInfo (wbGet wb "Client Details"))
      ++ premiumSection (wbGet wb "Premiums"), contactSection, ?_⟩
    simp [buildQuoteDoc, add_advisory_note, List.append_assoc]
  · intro t ht hne
    rw [ht]
    simp [advisoryTextOf, hne, notesText]
  · intro t ht he
    rw [ht]
    simp [advisoryTextOf, he]
  · intro ht
    rw [ht]
    rfl

/-- Witness for C6 at a two-row Final Notes sheet with one missing cell. -/
theorem c6_advisory_note_text_witness :
    advisoryTextOf (wbGet
      [("Final Notes", Table.mk ["A", "B"] [[Cell.v "x", Cell.na], [Cell.v "y", Cell.v "z"]])]
      "Final Notes") = "x  y z" := by
  have h := (c6_advisory_note_text
      [("Final Notes", Table.mk ["A", "B"] [[Cell.v "x", Cell.na], [Cell.v "y", Cell.v "z"]])]
      { day := 12, month := 10, year := 2026, hour := 9, minute := 30 }).2.1
      (Table.mk ["A", "B"] [[Cell.v "x", Cell.na], [Cell.v "y", Cell.v "z"]])
      rfl rfl
  rw [h]
  rfl

/-- C9: the pipeline is deterministic up to the timestamp: two runs on the
same parsed input either fail with the same error, or produce documents
that agree block-for-block except for the Date paragraph of the header. -/
theorem c9_deterministic_up_to_timestamp (input : ExcelInput) (t1 t2 : Timestamp) :
    (∃ e, make_term_quote_from_excel input t1 = Except.error e ∧
          make_term_quote_from_excel input t2 = Except.error e) ∨
    (∃ pre post,
      make_term_quote_from_excel input t1
        = Except.ok (pre ++ [Block.para ("Date: " ++ fmtTimestamp t1 ++ "\n")] ++ post) ∧
      make_term_quote_from_excel input t2
        = Except.ok (pre ++ [Block.para ("Date: " ++ fmtTimestamp t2 ++ "\n")] ++ post)) := by
  match input with
  | .corrupt cause => exact Or.inl ⟨QuoteError.malformedInput cause, rfl, rfl⟩
  | .wellFormed sheets =>
    refine Or.inr ?_
    refine ⟨[Block.para ("Incremint Edge Pvt Ltd\n" ++ "Final Incremint Dual-Pay Term Quote" ++ "\n")]
        ++ (if clientNameOf (sheets.map (fun p => (p.1, parseSheet p.2))) = "" then []
            else [Block.para ("Client: "
              ++ clientNameOf (sheets.map (fun p => (p.1, parseSheet p.2))) ++ "\n")]),
      clientSection (wbGet (sheets.map (fun p => (p.1, parseSheet p.2))) "Client Details")
        ++ add_cover_details_table (coverInfo (wbGet (sheets.map (fun p => (p.1, parseSheet p.2))) "Client Details"))
        ++ premiumSection (wbGet (sheets.map (fun p => (p.1, parseSheet p.2))) "Premiums")
        ++ add_advisory_note (advisoryTextOf (wbGet (sheets.map (fun p => (p.1, parseSheet p.2))) "Final Notes"))
        ++ contactSection, ?_, ?_⟩ <;>
      simp [make_term_quote_from_excel, read_sheets, buildQuoteDoc, write_header,
        Except.map, List.append_assoc]

lemma clientLine_in_write_header (ti cn : String) (now : Timestamp)
    (hti : isClientLine (Block.para ("Incremint Edge Pvt Ltd\n" ++ ti ++ "\n")) = false) :
    (∃ b ∈ write_header ti cn now, isClientLine b = true) ↔ cn ≠ "" := by
  constructor
  · rintro ⟨b, hb, hcl⟩ hcn
    rw [write_header, hcn] at hb
    simp at hb
    rcases hb with h | h <;> subst h
    · rw [hti] at hcl
      cases hcl
    · rw [isClientLine_datePara now] at hcl
      cases hcl
  · intro hcn
    exact ⟨Block.para ("Client: " ++ cn ++ "\n"), by simp [write_header, hcn],
      isClientLine_clientPara cn⟩

lemma clientNameOf_eq_match (wb : Workbook) (t : Table)
    (hw : wbGet wb "Client Details" = some t) (he : t.isEmpty = false) :
    clientNameOf wb =
      (match lookupCell t.columns (t.rows.headD []) "Client Name" with
       | some c => c.toStr
       | none => "") := by
  simp [clientNameOf, hw, he]

lemma clientNameOf_ne_empty_iff (wb : Workbook) :
    clientNameOf wb ≠ "" ↔
      ∃ t c, wbGet wb "Client Details" = some t ∧ t.isEmpty = false ∧
        lookupCell t.columns (t.rows.headD []) "Client Name" = some c ∧ Cell.toStr c ≠ "" := by
  constructor
  · intro hcn
    rcases hw : wbGet wb "Client Details" with _ | t
    · exact absurd (by simp [clientNameOf, hw]) hcn
    · by_cases he : t.isEmpty = true
      · exact absurd (by simp [clientNameOf, hw, he]) hcn
      · rw [Bool.not_eq_true] at he
        rw [clientNameOf_eq_match wb t hw he] at hcn
        rcases hcell : lookupCell t.columns (t.rows.headD []) "Client Name" with _ | c
        · rw [hcell] at hcn
          exact absurd rfl hcn
        · rw [hcell] at hcn
          exact ⟨t, c, rfl, he, hcell, hcn⟩
  · rintro ⟨t, c, hw, he, hcell, hcs⟩
    rw [clientNameOf_eq_match wb t hw he, hcell]
    exact hcs

/-- Counterexample to C5: a Client Details sheet that exists and has a
Client Name column but no data rows; the claimed iff demands a client line,
yet the document contains no paragraph carrying the Client prefix. -/
theorem c5_client_line_counterexample :
    wbGet [("Client Details", Table.mk ["Client Name"] [])] "Client Details"
      = some (Table.mk ["Client Name"] []) ∧
    "Client Name" ∈ (Table.mk ["Client Name"] []).columns ∧
    (buildQuoteDoc [("Client Details", Table.mk ["Client Name"] [])]
        { day := 12, month := 10, year := 2026, hour := 9, minute := 30 }).all
      (fun b => !isClientLine b) = true := by
  refine ⟨rfl, by decide, by decide⟩

/-- C5 amended: the header is always emitted, opening with the fixed
organisation line and title paragraph and closing with a Date paragraph in
DD-MM-YYYY HH:MM shape; the client name line is present exactly when Client
Details exists, is non-empty, has a Client Name column, and the first row's
value renders as a non-empty string (a missing value renders as nan and so
still yields the line). -/
theorem c5_header_and_client_line_amended (wb : Workbook) (now : Timestamp) :
    write_header "Final Incremint Dual-Pay Term Quote" (clientNameOf wb) now
      <+: buildQuoteDoc wb now ∧
    Block.para ("Incremint Edge Pvt Ltd\n" ++ "Final Incremint Dual-Pay Term Quote" ++ "\n")
      ∈ write_header "Final Incremint Dual-Pay Term Quote" (clientNameOf wb) now ∧
    Block.para ("Date: " ++ fmtTimestamp now ++ "\n")
      ∈ write_header "Final Incremint Dual-Pay Term Quote" (clientNameOf wb) now ∧
    isTimestampFormat (fmtTimestamp now) = true ∧
    ((∃ b ∈ write_header "Final Incremint Dual-Pay Term Quote" (clientNameOf wb) now,
        isClientLine b = true) ↔
      ∃ t c, wbGet wb "Client Details" = some t ∧ t.isEmpty = false ∧
        lookupCell t.columns (t.rows.headD []) "Client Name" = some c ∧ Cell.toStr c ≠ "") := by
  refine ⟨?_, ?_, ?_, fmtTimestamp_format now, ?_⟩
  · exact ⟨clientSection (wbGet wb "Client Details")
      ++ add_cover_details_table (coverInfo (wbGet wb "Client Details"))
      ++ premiumSection (wbGet wb "Premiums")
      ++ add_advisory_note (advisoryTextOf (wbGet wb "Final Notes"))
      ++ contactSection, by simp [buildQuoteDoc, List.append_assoc]⟩
  · simp [write_header]
  · simp [write_header]
  · rw [clientLine_in_write_header _ _ now (by decide)]
    exact clientNameOf_ne_empty_iff wb

/-- Witness for C5 amended: the Date line shape at a concrete instant. -/
theorem c5_header_and_client_line_amended_witness :
    isTimestampFormat (fmtTimestamp { day := 12, month := 10, year := 2026, hour := 9, minute := 30 })
      = true :=
  (c5_header_and_client_line_amended []
    { day := 12, month := 10, year := 2026, hour := 9, minute := 30 }).2.2.2.1
